import Mathlib

/-!
Shallow embedding of the Polydiction anomaly-scoring engine and position
aggregator.  JavaScript numbers are modelled as rationals (`ℚ`); nullable
fields as `Option`; the `BUY`/`SELL` side vocabulary as an inductive type.

Sources embedded here:
* `packages/scoring/src/features/*` — the feature bank
  (`computeTradeSizeVsMedian`, `computeTradeSizeVsDepth`,
  `computeAggressiveness`, `computeWalletBurst`,
  `computePositionConcentration`, `computeRampSpeed`,
  `computeTimingVsMarketEnd`, `computeWalletFreshness`,
  `computeDollarValue`), `computeAllFeatures`, `computeWeightedScore`;
* the scorer module (`scoreTrade`, `extractFeatures`, `checkMustFlag`,
  `generateReasons`, plus its own inline `normalize`), placed in the
  `Scorer` namespace because it re-implements several features with
  slightly different formulas;
* the scoring configuration (`FEATURE_WEIGHTS`, `getAlertThreshold`,
  `MUST_FLAG_THRESHOLDS`, `validateWeights`);
* the position polling service (`computePositionsFromTrades`,
  `updatePosition`).
-/

namespace Polydiction

/-- Trade side vocabulary, unified to upper-case BUY/SELL. -/
inductive Side where
  | BUY
  | SELL
deriving DecidableEq

/-- Trade data needed for feature computation (`TradeInput` in types.ts). -/
structure TradeInput where
  size : ℚ
  price : ℚ
  side : Side
  timestamp : ℚ
deriving DecidableEq

/-- Market state data needed for feature computation (`MarketInput`). -/
structure MarketInput where
  endDate : Option ℚ
  bestBid : ℚ
  bestAsk : ℚ
  bidDepth : ℚ
  askDepth : ℚ
deriving DecidableEq

/-- Historical context for feature computation (`ContextInput`). -/
structure ContextInput where
  medianTradeSize : ℚ
  walletPosition : ℚ
  walletPositionHourAgo : ℚ
  walletTradesLastHour : ℚ
  totalLiquidity : ℚ
  walletAgeDays : Option ℚ
  tradeUsdValue : ℚ
deriving DecidableEq

/-- Complete input for feature computation (`FeatureInput` / `ScoringInput`). -/
structure FeatureInput where
  trade : TradeInput
  market : MarketInput
  context : ContextInput
deriving DecidableEq

/-- Result from a feature computation (`FeatureResult`). -/
structure FeatureResult where
  name : String
  score : ℚ
  rawValue : ℚ
  description : String
deriving DecidableEq

/-- The shared sigmoid-like normalization primitive of the feature bank
(defined identically in trade-size.ts and position.ts):
`0` if `median <= 0`, else `1 - 1/(1 + value/median)`. -/
def normalize (value median : ℚ) : ℚ :=
  if median ≤ 0 then 0 else 1 - 1 / (1 + value / median)

/-- trade-size.ts `computeTradeSizeVsMedian`. -/
def computeTradeSizeVsMedian (input : FeatureInput) : FeatureResult :=
  let rawValue :=
    if input.context.medianTradeSize > 0 then
      input.trade.size / input.context.medianTradeSize
    else if input.trade.size > 0 then 10 else 0
  { name := "tradeSizeVsMedian"
    score := normalize input.trade.size input.context.medianTradeSize
    rawValue := rawValue
    description := "Trade significantly larger than market median" }

/-- depth-ratio.ts `computeTradeSizeVsDepth`. -/
def computeTradeSizeVsDepth (input : FeatureInput) : FeatureResult :=
  let relevantDepth :=
    if input.trade.side = Side.BUY then input.market.askDepth else input.market.bidDepth
  let rawValue :=
    if relevantDepth > 0 then input.trade.size / relevantDepth
    else if input.trade.size > 0 then 1 else 0
  { name := "tradeSizeVsDepth"
    score := min rawValue 1
    rawValue := rawValue
    description := "Trade consumes substantial orderbook depth" }

/-- aggressiveness.ts `computeAggressiveness`. -/
def computeAggressiveness (input : FeatureInput) : FeatureResult :=
  let trade := input.trade
  let market := input.market
  let spread := market.bestAsk - market.bestBid
  let sr : ℚ × ℚ :=
    if spread > 0 ∧ market.bestBid > 0 ∧ market.bestAsk > 0 then
      if trade.side = Side.BUY then
        if trade.price ≥ market.bestAsk then
          (0.8 + 0.2 * min ((trade.price - market.bestAsk) / spread) 1,
           1 + (trade.price - market.bestAsk) / spread)
        else if trade.price > market.bestBid then
          ((trade.price - market.bestBid) / spread * 0.7,
           (trade.price - market.bestBid) / spread)
        else (0, 0)
      else
        if trade.price ≤ market.bestBid then
          (0.8 + 0.2 * min ((market.bestBid - trade.price) / spread) 1,
           1 + (market.bestBid - trade.price) / spread)
        else if trade.price < market.bestAsk then
          ((market.bestAsk - trade.price) / spread * 0.7,
           (market.bestAsk - trade.price) / spread)
        else (0, 0)
    else (0, 0)
  { name := "aggressiveness"
    score := min sr.1 1
    rawValue := sr.2
    description := "Aggressive execution (crossing spread)" }

/-- wallet-burst.ts `computeWalletBurst`
(`MAX_EXPECTED_TRADES_PER_HOUR = 10`). -/
def computeWalletBurst (input : FeatureInput) : FeatureResult :=
  { name := "walletBurst"
    score := min (input.context.walletTradesLastHour / 10) 1
    rawValue := input.context.walletTradesLastHour
    description := "Rapid trading activity from wallet" }

/-- position.ts `computePositionConcentration`. -/
def computePositionConcentration (input : FeatureInput) : FeatureResult :=
  let rawValue :=
    if input.context.totalLiquidity > 0 then
      input.context.walletPosition / input.context.totalLiquidity
    else 0
  { name := "positionConcentration"
    score := min rawValue 1
    rawValue := rawValue
    description := "High position concentration" }

/-- position.ts `computeRampSpeed`. -/
def computeRampSpeed (input : FeatureInput) : FeatureResult :=
  let positionDelta :=
    |input.context.walletPosition - input.context.walletPositionHourAgo|
  let benchmark := input.context.medianTradeSize * 5
  let rawValue :=
    if benchmark > 0 then positionDelta / benchmark
    else if positionDelta > 0 then 1 else 0
  { name := "rampSpeed"
    score := normalize positionDelta benchmark
    rawValue := rawValue
    description := "Fast position accumulation" }

/-- One day in milliseconds (timing.ts `ONE_DAY_MS`). -/
def ONE_DAY_MS : ℚ := 24 * 60 * 60 * 1000

/-- timing.ts `computeTimingVsMarketEnd` (standalone capability, not part of
the default weight table). -/
def computeTimingVsMarketEnd (input : FeatureInput) : FeatureResult :=
  match input.market.endDate with
  | none =>
    { name := "timingVsMarketEnd"
      score := 0
      rawValue := -1
      description := "Trade close to market resolution" }
  | some endDate =>
    let timeToEnd := endDate - input.trade.timestamp
    if timeToEnd ≤ 0 then
      { name := "timingVsMarketEnd"
        score := 1
        rawValue := 0
        description := "Trade after market end date" }
    else
      let daysToEnd := timeToEnd / ONE_DAY_MS
      let score :=
        if daysToEnd < 1 then 0.9 + 0.1 * (1 - daysToEnd)
        else if daysToEnd < 7 then 0.5 + 0.4 * (1 - daysToEnd / 7)
        else if daysToEnd < 30 then 0.2 + 0.3 * (1 - daysToEnd / 30)
        else 0.1 * (1 - min (daysToEnd / 90) 1)
      { name := "timingVsMarketEnd"
        score := min score 1
        rawValue := daysToEnd
        description := "Trade close to market resolution" }

/-- timing.ts `computeWalletFreshness`. -/
def computeWalletFreshness (input : FeatureInput) : FeatureResult :=
  match input.context.walletAgeDays with
  | none =>
    { name := "walletFreshness"
      score := 0.5
      rawValue := -1
      description := "Wallet age unknown" }
  | some ageDays =>
    let score :=
      if ageDays < 1 then 1
      else if ageDays < 7 then 0.8
      else if ageDays < 30 then 0.4
      else if ageDays < 90 then 0.2
      else 0.1
    { name := "walletFreshness"
      score := score
      rawValue := ageDays
      description := "New or recently active wallet" }

/-- timing.ts `computeDollarValue`. -/
def computeDollarValue (input : FeatureInput) : FeatureResult :=
  let usdValue := input.context.tradeUsdValue
  { name := "dollarValue"
    score := if usdValue > 0 then 1 - 1 / (1 + usdValue / 5000) else 0
    rawValue := usdValue
    description := "Large absolute trade value" }

/-- The eight keys of the `FEATURE_WEIGHTS` object (`keyof typeof
FEATURE_WEIGHTS`); `timingVsMarketEnd` is deliberately not among them. -/
inductive FeatureName where
  | tradeSizeVsMedian
  | tradeSizeVsDepth
  | aggressiveness
  | walletBurst
  | positionConcentration
  | rampSpeed
  | walletFreshness
  | dollarValue
deriving DecidableEq

/-- The TypeScript key string of each weight-table entry. -/
def featureKeyString : FeatureName → String
  | .tradeSizeVsMedian => "tradeSizeVsMedian"
  | .tradeSizeVsDepth => "tradeSizeVsDepth"
  | .aggressiveness => "aggressiveness"
  | .walletBurst => "walletBurst"
  | .positionConcentration => "positionConcentration"
  | .rampSpeed => "rampSpeed"
  | .walletFreshness => "walletFreshness"
  | .dollarValue => "dollarValue"

/-- config.ts `FEATURE_WEIGHTS` (same values in both config modules). -/
def FEATURE_WEIGHTS : FeatureName → ℚ
  | .tradeSizeVsMedian => 0.15
  | .tradeSizeVsDepth => 0.15
  | .aggressiveness => 0.2
  | .walletBurst => 0.15
  | .positionConcentration => 0.1
  | .rampSpeed => 0.1
  | .walletFreshness => 0.1
  | .dollarValue => 0.05

/-- The pairs of `Object.entries(FEATURE_WEIGHTS)` in the object's insertion order. -/
def weightEntries : List (FeatureName × ℚ) :=
  [(.tradeSizeVsMedian, 0.15), (.tradeSizeVsDepth, 0.15),
   (.aggressiveness, 0.2), (.walletBurst, 0.15),
   (.positionConcentration, 0.1), (.rampSpeed, 0.1),
   (.walletFreshness, 0.1), (.dollarValue, 0.05)]

/-- features/index.ts `computeAllFeatures`: the record of the eight
weighted-table feature results. -/
def computeAllFeatures (input : FeatureInput) : FeatureName → FeatureResult :=
  fun n => match n with
  | .tradeSizeVsMedian => computeTradeSizeVsMedian input
  | .tradeSizeVsDepth => computeTradeSizeVsDepth input
  | .aggressiveness => computeAggressiveness input
  | .walletBurst => computeWalletBurst input
  | .positionConcentration => computePositionConcentration input
  | .rampSpeed => computeRampSpeed input
  | .walletFreshness => computeWalletFreshness input
  | .dollarValue => computeDollarValue input

/-- features/index.ts `computeWeightedScore`: fold of `score * weight` over
`Object.entries(FEATURE_WEIGHTS)`. -/
def computeWeightedScore (features : FeatureName → FeatureResult) : ℚ :=
  weightEntries.foldl (fun acc e => acc + (features e.1).score * e.2) 0

/-- config `DEFAULT_ALERT_SENSITIVITY`. -/
def DEFAULT_ALERT_SENSITIVITY : ℚ := 0.3

/-- config `getAlertThreshold`: `0.25 + sensitivity * 0.5`. -/
def getAlertThreshold (sensitivity : ℚ) : ℚ := 0.25 + sensitivity * 0.5

/-- config `MUST_FLAG_THRESHOLDS`. -/
structure MustFlagThresholdsT where
  singleTradeUsd : ℚ
  hourlyAccumulationUsd : ℚ
  newWalletTradeUsd : ℚ
  newWalletAgeDays : ℚ
  positionLiquidityPercent : ℚ

def MUST_FLAG_THRESHOLDS : MustFlagThresholdsT :=
  { singleTradeUsd := 25000
    hourlyAccumulationUsd := 50000
    newWalletTradeUsd := 10000
    newWalletAgeDays := 7
    positionLiquidityPercent := 5 }

/-- config `validateWeights`: `|sum of weights - 1| < 0.001`. -/
def validateWeights : Bool :=
  decide (|(weightEntries.map Prod.snd).sum - 1| < 0.001)

/-- JavaScript `Number.prototype.toString`, modelled exactly for integral
values (JS prints them without a decimal point); no claim exercises a
non-integral value here, where JS would print a decimal expansion instead
of the `Rat` representation used as a fallback. -/
def jsNumToString (q : ℚ) : String :=
  if q.den = 1 then toString q.num else toString q

/-- JavaScript `Number.prototype.toFixed(1)` for the non-negative values the
scorer feeds it: round to the nearest tenth and print with one decimal
digit. -/
def toFixed1 (q : ℚ) : String :=
  let n : ℤ := round (q * 10)
  toString (n / 10) ++ "." ++ toString (n % 10)

namespace Scorer

/-- The scorer module's own inline `normalize`: unlike the feature bank's
copy it only guards `median === 0`, so a negative median falls through to
the formula. -/
def normalize (value median : ℚ) : ℚ :=
  if median = 0 then 0 else 1 - 1 / (1 + value / median)

/-- The scorer's inline `extractFeatures`: the eight feature scores as
computed inside the scorer module (note its aggressiveness, rampSpeed and
walletFreshness differ from the feature-bank functions). -/
def extractFeatures (input : FeatureInput) : FeatureName → ℚ :=
  let trade := input.trade
  let market := input.market
  let context := input.context
  let tradeSizeVsMedian := normalize trade.size context.medianTradeSize
  let relevantDepth :=
    if trade.side = Side.BUY then market.askDepth else market.bidDepth
  let tradeSizeVsDepth :=
    if relevantDepth > 0 then min (trade.size / relevantDepth) 1 else 1
  let midPrice := (market.bestBid + market.bestAsk) / 2
  let spread := market.bestAsk - market.bestBid
  let aggressiveness :=
    if spread > 0 then
      if trade.side = Side.BUY ∧ trade.price ≥ market.bestAsk then
        0.8 + 0.2 * min ((trade.price - market.bestAsk) / spread) 1
      else if trade.side = Side.SELL ∧ trade.price ≤ market.bestBid then
        0.8 + 0.2 * min ((market.bestBid - trade.price) / spread) 1
      else
        |trade.price - midPrice| / (spread / 2) * 0.5
    else 0
  let walletBurst := min (context.walletTradesLastHour / 10) 1
  let positionConcentration :=
    if context.totalLiquidity > 0 then
      min (context.walletPosition / context.totalLiquidity) 1
    else 0
  let positionDelta := |context.walletPosition - context.walletPositionHourAgo|
  let rampSpeed :=
    if context.medianTradeSize > 0 then
      normalize positionDelta (context.medianTradeSize * 5)
    else 0
  let walletFreshness :=
    match context.walletAgeDays with
    | none => 0
    | some ageDays =>
      if ageDays < 1 then 1
      else if ageDays < 7 then 0.8
      else if ageDays < 30 then 0.4
      else 0.1
  let dollarValue := normalize context.tradeUsdValue 5000
  fun n => match n with
  | .tradeSizeVsMedian => tradeSizeVsMedian
  | .tradeSizeVsDepth => tradeSizeVsDepth
  | .aggressiveness => aggressiveness
  | .walletBurst => walletBurst
  | .positionConcentration => positionConcentration
  | .rampSpeed => rampSpeed
  | .walletFreshness => walletFreshness
  | .dollarValue => dollarValue

/-- Result of `checkMustFlag`. -/
structure MustFlagResult where
  mustFlag : Bool
  condition : Option String
deriving DecidableEq

/-- The scorer's `checkMustFlag`: the four must-flag rules checked in
priority order, each yielding its formatted condition string
(`25000 .toLocaleString() = "25,000"` etc. are inlined as literals). -/
def checkMustFlag (input : FeatureInput) : MustFlagResult :=
  let context := input.context
  if context.tradeUsdValue > MUST_FLAG_THRESHOLDS.singleTradeUsd then
    { mustFlag := true, condition := some ("Single trade > $25,000") }
  else
    let hourlyDelta :=
      |context.walletPosition - context.walletPositionHourAgo| * input.trade.price
    if hourlyDelta > MUST_FLAG_THRESHOLDS.hourlyAccumulationUsd then
      { mustFlag := true, condition := some ("Accumulated > $50,000 in 1 hour") }
    else
      let liquidityCheck : MustFlagResult :=
        if context.totalLiquidity > 0 then
          let positionPercent := context.walletPosition / context.totalLiquidity * 100
          if positionPercent > MUST_FLAG_THRESHOLDS.positionLiquidityPercent then
            { mustFlag := true
              condition := some ("Position is " ++ toFixed1 positionPercent ++
                "% of market liquidity") }
          else { mustFlag := false, condition := none }
        else { mustFlag := false, condition := none }
      match context.walletAgeDays with
      | some ageDays =>
        if ageDays < MUST_FLAG_THRESHOLDS.newWalletAgeDays ∧
            context.tradeUsdValue > MUST_FLAG_THRESHOLDS.newWalletTradeUsd then
          { mustFlag := true
            condition := some ("New wallet (" ++ jsNumToString ageDays ++
              "d old) traded > $10,000") }
        else liquidityCheck
      | none => liquidityCheck

/-- Reasons attached to a `ScoringResult` (`AlertReasons`). -/
structure Reasons where
  primary : String
  factors : List String
  mustFlag : Bool
  mustFlagCondition : Option String
deriving DecidableEq

/-- Stable insertion into a list sorted by descending weighted score —
mirrors the stable JS `Array.prototype.sort` with comparator
`b.weighted - a.weighted` (equal elements keep their original order). -/
def insertDesc (x : FeatureName × ℚ) : List (FeatureName × ℚ) → List (FeatureName × ℚ)
  | [] => [x]
  | y :: ys => if y.2 ≥ x.2 then y :: insertDesc x ys else x :: y :: ys

/-- Stable sort by descending weighted score. -/
def sortDesc (l : List (FeatureName × ℚ)) : List (FeatureName × ℚ) :=
  l.foldl (fun acc x => insertDesc x acc) []

/-- The scorer's `primaryReasonMap`. -/
def primaryReasonMap : FeatureName → String
  | .tradeSizeVsMedian => "Unusually large trade size"
  | .tradeSizeVsDepth => "Trade consumes significant liquidity"
  | .aggressiveness => "Aggressive trade execution"
  | .walletBurst => "Burst of trading activity"
  | .positionConcentration => "Concentrated position"
  | .rampSpeed => "Rapid position building"
  | .walletFreshness => "New wallet activity"
  | .dollarValue => "High-value trade"

/-- The scorer's `generateReasons`. -/
def generateReasons (features : FeatureName → ℚ)
    (mustFlagResult : MustFlagResult) : Reasons :=
  let factors :=
    (if features .tradeSizeVsMedian > 0.7 then
      ["Trade significantly larger than market median"] else []) ++
    (if features .tradeSizeVsDepth > 0.5 then
      ["Trade consumes substantial orderbook depth"] else []) ++
    (if features .aggressiveness > 0.7 then
      ["Aggressive execution (crossing spread)"] else []) ++
    (if features .walletBurst > 0.5 then
      ["Rapid trading activity from wallet"] else []) ++
    (if features .positionConcentration > 0.3 then
      ["High position concentration"] else []) ++
    (if features .rampSpeed > 0.5 then
      ["Fast position accumulation"] else []) ++
    (if features .walletFreshness > 0.7 then
      ["New or recently active wallet"] else []) ++
    (if features .dollarValue > 0.7 then
      ["Large absolute trade value"] else [])
  let weightedScores :=
    sortDesc (weightEntries.map (fun e => (e.1, features e.1 * FEATURE_WEIGHTS e.1)))
  let primaryKey :=
    (weightedScores.head?.map Prod.fst).getD FeatureName.tradeSizeVsMedian
  let primary :=
    if mustFlagResult.mustFlag then
      match mustFlagResult.condition with
      | some c => c
      | none => primaryReasonMap primaryKey
    else primaryReasonMap primaryKey
  { primary := primary
    factors := factors
    mustFlag := mustFlagResult.mustFlag
    mustFlagCondition := mustFlagResult.condition }

/-- The scorer's `ScoringResult`. -/
structure ScoringResult where
  score : ℚ
  features : FeatureName → ℚ
  shouldAlert : Bool
  reasons : Reasons

/-- The scorer's `scoreTrade`: extract features, fold the weighted sum over
`Object.entries(FEATURE_WEIGHTS)`, check must-flag, compare against the
sensitivity-derived threshold, generate reasons. -/
def scoreTrade (input : FeatureInput) (sensitivity : ℚ) : ScoringResult :=
  let features := extractFeatures input
  let score := weightEntries.foldl (fun acc e => acc + features e.1 * e.2) 0
  let mustFlagResult := checkMustFlag input
  let threshold := getAlertThreshold sensitivity
  let shouldAlert := mustFlagResult.mustFlag || decide (score ≥ threshold)
  { score := score
    features := features
    shouldAlert := shouldAlert
    reasons := generateReasons features mustFlagResult }

end Scorer

namespace PosAgg

/-- The zero-address convention marking "no counterparty". -/
def zeroAddress : String := "0x0000000000000000000000000000000000000000"

/-- A trade record as consumed by the position polling service. -/
structure LedgerTrade where
  taker : String
  maker : String
  tokenId : String
  side : Side
  size : ℚ
  price : ℚ

/-- One `(wallet, token)` aggregation entry (`WalletTokenPosition`,
numeric fields only — the string round-tripping through `parseFloat` /
`toString` is the identity on the numeric content). -/
structure WalletTokenPosition where
  position : ℚ
  buyVolume : ℚ
  sellVolume : ℚ
  tradeCount : ℕ
  avgPrice : Option ℚ
deriving DecidableEq

/-- A fresh entry (`position: "0", buyVolume: "0", sellVolume: "0",
tradeCount: 0, avgPrice: null`). -/
def emptyPosition : WalletTokenPosition :=
  { position := 0, buyVolume := 0, sellVolume := 0, tradeCount := 0, avgPrice := none }

/-- The nested `Map: wallet -> tokenId -> position data`, as a partial map. -/
def Positions : Type := String → String → Option WalletTokenPosition

/-- The empty map. -/
def noPositions : Positions := fun _ _ => none

/-- The service's `updatePosition`: skip empty and zero-address wallets; otherwise get or
create the entry and apply one trade leg.  Effective buy means
taker+BUY or maker+SELL. -/
def updatePosition (ps : Positions) (wallet tokenId : String) (side : Side)
    (size price : ℚ) (isTaker : Bool) : Positions :=
  if wallet = "" ∨ wallet = zeroAddress then ps
  else
    let p := (ps wallet tokenId).getD emptyPosition
    let effectiveBuy := (isTaker ∧ side = Side.BUY) ∨ (¬isTaker ∧ side = Side.SELL)
    let p' :=
      if effectiveBuy then
        { p with position := p.position + size, buyVolume := p.buyVolume + size }
      else
        { p with position := p.position - size, sellVolume := p.sellVolume + size }
    let p'' :=
      { p' with
        tradeCount := p'.tradeCount + 1
        avgPrice := if effectiveBuy ∧ size > 0 then some price else p'.avgPrice }
    fun w t => if w = wallet ∧ t = tokenId then some p'' else ps w t

/-- One iteration of the `computePositionsFromTrades` loop: taker leg first,
then the maker leg with the opposite effective side, both from the same
trade record. -/
def processTrade (ps : Positions) (t : LedgerTrade) : Positions :=
  updatePosition (updatePosition ps t.taker t.tokenId t.side t.size t.price true)
    t.maker t.tokenId t.side t.size t.price false

/-- The service's `computePositionsFromTrades`: fold the trade window through both legs of
every trade. -/
def computePositionsFromTrades (trades : List LedgerTrade) : Positions :=
  trades.foldl processTrade noPositions

end PosAgg

/-! ### Claim-side definitions

Each `...Claim` definition below transcribes the wording of a spec claim (not
the source); the theorems compare them with the embedded source functions. -/

/-- Claim C5's piecewise description of the aggressiveness feature: 0 when
the book cannot be assessed; for BUY: crossing the ask scores
`0.8 + 0.2*min(1, overpay/spread)`, in-spread scores
`0.7*(price-bestBid)/spread`, at or below the bid scores 0; mirrored for
SELL. -/
def aggressivenessClaim (input : FeatureInput) : ℚ :=
  let trade := input.trade
  let market := input.market
  let spread := market.bestAsk - market.bestBid
  if spread ≤ 0 ∨ market.bestBid ≤ 0 ∨ market.bestAsk ≤ 0 then 0
  else
    match trade.side with
    | Side.BUY =>
      if trade.price ≥ market.bestAsk then
        0.8 + 0.2 * min 1 ((trade.price - market.bestAsk) / spread)
      else if market.bestBid < trade.price ∧ trade.price < market.bestAsk then
        0.7 * ((trade.price - market.bestBid) / spread)
      else 0
    | Side.SELL =>
      if trade.price ≤ market.bestBid then
        0.8 + 0.2 * min 1 ((market.bestBid - trade.price) / spread)
      else if market.bestBid < trade.price ∧ trade.price < market.bestAsk then
        0.7 * ((market.bestAsk - trade.price) / spread)
      else 0

/-- Claim C6's step function of wallet age: `<1 ↦ 1.0`, `[1,7) ↦ 0.8`,
`[7,30) ↦ 0.4`, `[30,90) ↦ 0.2`, `≥90 ↦ 0.1`, null ↦ 0.5. -/
def walletFreshnessClaim : Option ℚ → ℚ
  | none => 0.5
  | some age =>
    if age < 1 then 1
    else if age < 7 then 0.8
    else if age < 30 then 0.4
    else if age < 90 then 0.2
    else 0.1

/-- The step function the scorer's inline walletFreshness actually computes
(null ↦ 0, and a single 0.1 band for every age ≥ 30). -/
def scorerWalletFreshnessActual : Option ℚ → ℚ
  | none => 0
  | some age =>
    if age < 1 then 1
    else if age < 7 then 0.8
    else if age < 30 then 0.4
    else 0.1

/-- Claim C2's description of the must-flag evaluator, with the one
amendment the code forces: condition (d) additionally requires
`totalLiquidity > 0` (the code skips the liquidity rule entirely on an
empty book).  Conditions in priority order (a) single trade > $25,000,
(b) hourly position change valued at the trade price > $50,000,
(c) known wallet age < 7 days and trade > $10,000,
(d) positive liquidity and position > 5% of it. -/
def mustFlagClaim (input : FeatureInput) : Scorer.MustFlagResult :=
  let c := input.context
  if c.tradeUsdValue > 25000 then
    { mustFlag := true, condition := some ("Single trade > $25,000") }
  else if |c.walletPosition - c.walletPositionHourAgo| * input.trade.price > 50000 then
    { mustFlag := true, condition := some ("Accumulated > $50,000 in 1 hour") }
  else if c.walletAgeDays.isSome ∧ c.walletAgeDays.getD 0 < 7 ∧
      c.tradeUsdValue > 10000 then
    { mustFlag := true
      condition := some ("New wallet (" ++ jsNumToString (c.walletAgeDays.getD 0) ++
        "d old) traded > $10,000") }
  else if 0 < c.totalLiquidity ∧ c.walletPosition > c.totalLiquidity * (5 / 100) then
    { mustFlag := true
      condition := some ("Position is " ++
        toFixed1 (c.walletPosition / c.totalLiquidity * 100) ++
        "% of market liquidity") }
  else { mustFlag := false, condition := none }

/-- A degenerate scoring input: everything zero / null / BUY. -/
def baseInput : FeatureInput :=
  { trade := { size := 0, price := 0, side := Side.BUY, timestamp := 0 }
    market := { endDate := none, bestBid := 0, bestAsk := 0, bidDepth := 0, askDepth := 0 }
    context :=
      { medianTradeSize := 0, walletPosition := 0, walletPositionHourAgo := 0
        walletTradesLastHour := 0, totalLiquidity := 0, walletAgeDays := none
        tradeUsdValue := 0 } }

/-- Replace `market.endDate` inside a scoring input. -/
def setEndDate (input : FeatureInput) (e : Option ℚ) : FeatureInput :=
  { input with market := { input.market with endDate := e } }

/-- Claim C7's description of one aggregation leg: position is incremented
by the trade size on an effective buy (taker+BUY or maker+SELL) and
decremented otherwise, the size is added to the matching volume, the trade
count goes up by one, and the last effective-buy price is remembered. -/
def legUpdateClaim (old : PosAgg.WalletTokenPosition) (side : Side)
    (size price : ℚ) (isTaker : Bool) : PosAgg.WalletTokenPosition :=
  if (isTaker ∧ side = Side.BUY) ∨ (¬isTaker ∧ side = Side.SELL) then
    { position := old.position + size
      buyVolume := old.buyVolume + size
      sellVolume := old.sellVolume
      tradeCount := old.tradeCount + 1
      avgPrice := if size > 0 then some price else old.avgPrice }
  else
    { position := old.position - size
      buyVolume := old.buyVolume
      sellVolume := old.sellVolume + size
      tradeCount := old.tradeCount + 1
      avgPrice := old.avgPrice }

/-- The depth on the side the trade consumes (ask depth for a BUY, bid depth
for a SELL) — `relevantDepth` in both tradeSizeVsDepth variants. -/
def consumedDepth (input : FeatureInput) : ℚ :=
  if input.trade.side = Side.BUY then input.market.askDepth else input.market.bidDepth

/-! ### Concrete inputs used by scenario, witness and counterexample
theorems -/

/-- A $26,000 trade with every other raw input degenerate (ask depth 1 so
the depth feature is 0 rather than the empty-book fallback 1). -/
def inp26 : FeatureInput :=
  { baseInput with
    market := { baseInput.market with askDepth := 1 }
    context := { baseInput.context with tradeUsdValue := 26000 } }

/-- A 3-day-old wallet making a $12,000 trade, all other conditions below
threshold. -/
def inpAge3 : FeatureInput :=
  { baseInput with
    context := { baseInput.context with walletAgeDays := some 3, tradeUsdValue := 12000 } }

/-- Positive wallet position on a market with zero recorded liquidity, all
other must-flag conditions below threshold. -/
def inpLiq0 : FeatureInput :=
  { baseInput with
    context := { baseInput.context with walletPosition := 1, walletPositionHourAgo := 1 } }

/-- A BUY strictly inside the spread: bid 0.40, ask 0.60, price 0.45. -/
def inpMid : FeatureInput :=
  { baseInput with
    trade := { baseInput.trade with price := 0.45 }
    market := { baseInput.market with bestBid := 0.4, bestAsk := 0.6 } }

/-- The C5 scenario: BUY at 0.60 with bid 0.50 and ask 0.55. -/
def inpCross : FeatureInput :=
  { baseInput with
    trade := { baseInput.trade with price := 0.6 }
    market := { baseInput.market with bestBid := 0.5, bestAsk := 0.55 } }

/-- A 45-day-old wallet. -/
def inpAge45 : FeatureInput :=
  { baseInput with
    context := { baseInput.context with walletAgeDays := some 45 } }

/-- A wallet short 50 units in a market with total liquidity 100. -/
def inpNegPos : FeatureInput :=
  { baseInput with
    context := { baseInput.context with walletPosition := -50, totalLiquidity := 100 } }

/-- A BUY of size 5 against an empty ask side. -/
def inpDepth0 : FeatureInput :=
  { baseInput with trade := { baseInput.trade with size := 5 } }

/-- Trade A of the C7 scenario: taker W1 buys 5. -/
def tA : PosAgg.LedgerTrade :=
  { taker := "W1", maker := "W3", tokenId := "tok", side := Side.BUY, size := 5, price := 0.5 }

/-- Trade B of the C7 scenario: W1 is the maker on a SELL of 3. -/
def tB : PosAgg.LedgerTrade :=
  { taker := "W4", maker := "W1", tokenId := "tok", side := Side.SELL, size := 3, price := 0.6 }

/-- A trade whose taker is the zero address. -/
def tZero : PosAgg.LedgerTrade :=
  { taker := PosAgg.zeroAddress, maker := "W2", tokenId := "tok", side := Side.BUY,
    size := 5, price := 0.5 }

/-! ### Theorems -/

/-- C9: the default weighted score is unaffected by the timingVsMarketEnd
feature: the weight table's keys are exactly the eight feature key strings
(timingVsMarketEnd is not among them), and `computeAllFeatures`,
`computeWeightedScore`, and `scoreTrade` are invariant under changes to
`market.endDate` — identical scores, alert decisions, and reasons. -/
theorem c9_endDate_invariance :
    (∀ (input : FeatureInput) (e : Option ℚ),
      computeAllFeatures (setEndDate input e) = computeAllFeatures input) ∧
    (∀ (input : FeatureInput) (e : Option ℚ),
      computeWeightedScore (computeAllFeatures (setEndDate input e)) =
        computeWeightedScore (computeAllFeatures input)) ∧
    (∀ (input : FeatureInput) (e : Option ℚ) (s : ℚ),
      Scorer.scoreTrade (setEndDate input e) s = Scorer.scoreTrade input s) ∧
    weightEntries.map (fun e => featureKeyString e.1) =
      ["tradeSizeVsMedian", "tradeSizeVsDepth", "aggressiveness", "walletBurst",
       "positionConcentration", "rampSpeed", "walletFreshness", "dollarValue"] ∧
    "timingVsMarketEnd" ∉ weightEntries.map (fun e => featureKeyString e.1) :=
  ⟨fun _ _ => rfl, fun _ _ => rfl, fun _ _ _ => rfl, by decide, by decide⟩

/-- C10: when the consumed-side depth is ≤ 0, `computeTradeSizeVsDepth`
scores 1 for a positive-size trade and 0 for a zero-size trade, while the
scorer's inline variant scores 1 unconditionally. -/
theorem c10_zero_depth (input : FeatureInput) (h : consumedDepth input ≤ 0) :
    (0 < input.trade.size → (computeTradeSizeVsDepth input).score = 1) ∧
    (input.trade.size = 0 → (computeTradeSizeVsDepth input).score = 0) ∧
    Scorer.extractFeatures input FeatureName.tradeSizeVsDepth = 1 := by
  have hd : ¬ ((if input.trade.side = Side.BUY then input.market.askDepth
      else input.market.bidDepth) > 0) := by
    simpa [consumedDepth, not_lt] using h
  refine ⟨fun hs => ?_, fun hs => ?_, ?_⟩
  · simp [computeTradeSizeVsDepth, hd, hs]
  · simp [computeTradeSizeVsDepth, hd, hs]
  · simp [Scorer.extractFeatures, hd]

/-- Witness for C10 at a concrete input: a BUY of size 5 into an empty ask
side. -/
theorem c10_zero_depth_witness :
    (0 < inpDepth0.trade.size → (computeTradeSizeVsDepth inpDepth0).score = 1) ∧
    (inpDepth0.trade.size = 0 → (computeTradeSizeVsDepth inpDepth0).score = 0) ∧
    Scorer.extractFeatures inpDepth0 FeatureName.tradeSizeVsDepth = 1 :=
  c10_zero_depth inpDepth0 (by decide)

/-- C4: the shipped weight table passes `validateWeights` (its sum is 1
within tolerance 0.001), and the weighted score of any feature map whose
eight scores lie in [0,1] lies in [0,1]. -/
theorem c4_weights_and_bounded :
    validateWeights = true ∧
    ∀ features : FeatureName → FeatureResult,
      (∀ n, 0 ≤ (features n).score ∧ (features n).score ≤ 1) →
      0 ≤ computeWeightedScore features ∧ computeWeightedScore features ≤ 1 := by
  constructor
  · have h : |(weightEntries.map Prod.snd).sum - 1| < (0.001 : ℚ) := by
      norm_num [weightEntries]
    simpa [validateWeights] using h
  · intro features h
    have h1 := h .tradeSizeVsMedian
    have h2 := h .tradeSizeVsDepth
    have h3 := h .aggressiveness
    have h4 := h .walletBurst
    have h5 := h .positionConcentration
    have h6 := h .rampSpeed
    have h7 := h .walletFreshness
    have h8 := h .dollarValue
    simp only [computeWeightedScore, weightEntries, List.foldl_cons, List.foldl_nil]
    constructor <;> nlinarith [h1.1, h1.2, h2.1, h2.2, h3.1, h3.2, h4.1, h4.2,
      h5.1, h5.2, h6.1, h6.2, h7.1, h7.2, h8.1, h8.2]

/-- A constant feature map with every score 1. -/
def allOneFeatures : FeatureName → FeatureResult :=
  fun _ => { name := "", score := 1, rawValue := 0, description := "" }

/-- Witness for C4 at the concrete feature map with all eight scores 1. -/
theorem c4_weights_witness :
    0 ≤ computeWeightedScore allOneFeatures ∧ computeWeightedScore allOneFeatures ≤ 1 :=
  c4_weights_and_bounded.2 allOneFeatures (fun _ => ⟨zero_le_one, le_rfl⟩)

/-- C8 counterexample: the scorer's inline copy of the normalization
primitive guards only `median === 0`, so at `(v, m) = (1, -2)` — where the
claim requires 0 because `m ≤ 0` — it computes the formula and returns -1. -/
theorem c8_scorer_normalize_counterexample :
    Scorer.normalize 1 (-2) = -1 ∧ ((-1 : ℚ) ≠ 0) ∧ ((-2 : ℚ) ≤ 0) := by
  norm_num [Scorer.normalize]

/-- C8 (amended): the feature-bank `normalize` returns 0 whenever `m ≤ 0`,
while the scorer's inline copy returns 0 only at `m = 0` and otherwise
computes `1 - 1/(1 + v/m)`; for `m > 0` the two agree, the curve is
strictly increasing over `v ≥ 0`, bounded in [0,1), equals 0.5 at `v = m`,
0.8 at ratio 4, and 0.9 at ratio 9. -/
theorem c8_normalize_props :
    (∀ v m : ℚ, m ≤ 0 → normalize v m = 0) ∧
    (∀ v : ℚ, Scorer.normalize v 0 = 0) ∧
    (∀ v m : ℚ, m ≠ 0 → Scorer.normalize v m = 1 - 1 / (1 + v / m)) ∧
    (∀ v m : ℚ, 0 < m → normalize v m = 1 - 1 / (1 + v / m)) ∧
    (∀ v m : ℚ, 0 < m → Scorer.normalize v m = normalize v m) ∧
    (∀ m v₁ v₂ : ℚ, 0 < m → 0 ≤ v₁ → v₁ < v₂ → normalize v₁ m < normalize v₂ m) ∧
    (∀ v m : ℚ, 0 < m → 0 ≤ v → 0 ≤ normalize v m ∧ normalize v m < 1) ∧
    (∀ m : ℚ, 0 < m → normalize m m = 0.5) ∧
    (∀ m : ℚ, 0 < m → normalize (4 * m) m = 0.8 ∧ normalize (9 * m) m = 0.9) := by
  refine ⟨?_, ?_, ?_, ?_, ?_, ?_, ?_, ?_, ?_⟩
  · intro v m h
    simp [normalize, h]
  · intro v
    simp [Scorer.normalize]
  · intro v m h
    simp [Scorer.normalize, h]
  · intro v m h
    simp [normalize, not_le.mpr h]
  · intro v m h
    simp [Scorer.normalize, normalize, h.ne', not_le.mpr h]
  · intro m v₁ v₂ hm h1 h12
    have e1 : normalize v₁ m = 1 - 1 / (1 + v₁ / m) := by simp [normalize, not_le.mpr hm]
    have e2 : normalize v₂ m = 1 - 1 / (1 + v₂ / m) := by simp [normalize, not_le.mpr hm]
    rw [e1, e2]
    have d1 : (0 : ℚ) < 1 + v₁ / m := by
      have := div_nonneg h1 hm.le
      linarith
    have dlt : 1 + v₁ / m < 1 + v₂ / m := by
      have : v₁ / m < v₂ / m := by gcongr
      linarith
    have key : 1 / (1 + v₂ / m) < 1 / (1 + v₁ / m) :=
      one_div_lt_one_div_of_lt d1 dlt
    linarith
  · intro v m hm hv
    have e : normalize v m = 1 - 1 / (1 + v / m) := by simp [normalize, not_le.mpr hm]
    have hd : (0 : ℚ) < 1 + v / m := by
      have := div_nonneg hv hm.le
      linarith
    constructor
    · rw [e]
      have : 1 / (1 + v / m) ≤ 1 := by
        rw [div_le_one hd]
        have := div_nonneg hv hm.le
        linarith
      linarith
    · rw [e]
      have : 0 < 1 / (1 + v / m) := one_div_pos.mpr hd
      linarith
  · intro m hm
    rw [normalize, if_neg (not_le.mpr hm), div_self hm.ne']
    norm_num
  · intro m hm
    constructor
    · rw [normalize, if_neg (not_le.mpr hm), mul_div_assoc, div_self hm.ne']
      norm_num
    · rw [normalize, if_neg (not_le.mpr hm), mul_div_assoc, div_self hm.ne']
      norm_num

/-- Witness for C8: every hypothesis-bearing conjunct instantiated at
concrete inputs. -/
theorem c8_normalize_witness :
    normalize 0 (-1) = 0 ∧
    Scorer.normalize 1 2 = 1 - 1 / (1 + 1 / 2) ∧
    normalize 1 2 = 1 - 1 / (1 + 1 / 2) ∧
    Scorer.normalize 3 2 = normalize 3 2 ∧
    normalize 1 1 < normalize 2 1 ∧
    (0 ≤ normalize 2 1 ∧ normalize 2 1 < 1) ∧
    normalize 1 1 = 0.5 ∧
    (normalize (4 * 1) 1 = 0.8 ∧ normalize (9 * 1) 1 = 0.9) :=
  ⟨c8_normalize_props.1 0 (-1) (by decide),
   c8_normalize_props.2.2.1 1 2 (by decide),
   c8_normalize_props.2.2.2.1 1 2 (by decide),
   c8_normalize_props.2.2.2.2.1 3 2 (by decide),
   c8_normalize_props.2.2.2.2.2.1 1 1 2 (by decide) (by decide) (by decide),
   c8_normalize_props.2.2.2.2.2.2.1 2 1 (by decide) (by decide),
   c8_normalize_props.2.2.2.2.2.2.2.1 1 (by decide),
   c8_normalize_props.2.2.2.2.2.2.2.2 1 (by decide)⟩

/-- C6 counterexample: for a 45-day-old wallet the claim's step function
gives 0.2, but the walletFreshness the shipped scorer computes (its inline
variant) is 0.1 — the inline copy has no [30,90) band. -/
theorem c6_inline_counterexample :
    Scorer.extractFeatures inpAge45 FeatureName.walletFreshness = 0.1 ∧
    walletFreshnessClaim (some 45) = 0.2 ∧
    ((0.1 : ℚ) ≠ 0.2) ∧
    Scorer.extractFeatures baseInput FeatureName.walletFreshness = 0 ∧
    walletFreshnessClaim none = 0.5 := by
  refine ⟨?_, by norm_num [walletFreshnessClaim], by norm_num, ?_, by norm_num [walletFreshnessClaim]⟩
  · norm_num [Scorer.extractFeatures, inpAge45, baseInput]
  · norm_num [Scorer.extractFeatures, baseInput]

/-- C6 (amended): the feature-bank `computeWalletFreshness` is exactly the
claimed step function of wallet age (1.0 / 0.8 / 0.4 / 0.2 / 0.1 with 0.5
for unknown age), but the scorer's inline variant instead returns 0 for
unknown age and 0.1 for every age ≥ 30 (no 0.2 band). -/
theorem c6_walletFreshness_spec :
    (∀ input : FeatureInput,
      (computeWalletFreshness input).score = walletFreshnessClaim input.context.walletAgeDays) ∧
    (∀ input : FeatureInput,
      Scorer.extractFeatures input FeatureName.walletFreshness =
        scorerWalletFreshnessActual input.context.walletAgeDays) := by
  constructor <;> intro input
  · cases h : input.context.walletAgeDays <;>
      simp [computeWalletFreshness, walletFreshnessClaim, h]
  · cases h : input.context.walletAgeDays <;>
      simp [Scorer.extractFeatures, scorerWalletFreshnessActual, h]

/-- C5 counterexample: for a BUY strictly inside the spread (bid 0.40,
ask 0.60, price 0.45, a book the claim's guard accepts) the claim's rule
`0.7 * (price - bestBid)/spread` gives 7/40 = 0.175, but the aggressiveness
the shipped scorer computes (its inline distance-from-mid variant) is
1/4 = 0.25. -/
theorem c5_inline_counterexample :
    Scorer.extractFeatures inpMid FeatureName.aggressiveness = 1 / 4 ∧
    0.7 * ((inpMid.trade.price - inpMid.market.bestBid) /
      (inpMid.market.bestAsk - inpMid.market.bestBid)) = 7 / 40 ∧
    ((1 / 4 : ℚ) ≠ 7 / 40) ∧
    inpMid.market.bestBid < inpMid.trade.price ∧
    inpMid.trade.price < inpMid.market.bestAsk ∧
    0 < inpMid.market.bestBid := by
  refine ⟨?_, ?_, by norm_num, ?_, ?_, ?_⟩ <;>
    norm_num [Scorer.extractFeatures, inpMid, baseInput, abs]

/-- Capping a crossing-branch aggressiveness score at 1 is the identity. -/
theorem aggressiveness_cross_cap (x : ℚ) :
    min (0.8 + 0.2 * min x 1) 1 = 0.8 + 0.2 * min 1 x := by
  rw [min_comm x 1]
  have h : (0.8 : ℚ) + 0.2 * min 1 x ≤ 1 := by
    have := min_le_left (1 : ℚ) x
    linarith
  exact min_eq_left h

/-- Capping an in-spread aggressiveness score at 1 is the identity. -/
theorem aggressiveness_spread_cap (x : ℚ) (hx : x < 1) :
    min (x * 0.7) 1 = 0.7 * x := by
  rw [min_eq_left (by linarith), mul_comm]

/-- C5 (amended): the feature-bank `computeAggressiveness` satisfies the
claimed piecewise rule exactly (including the 1.0 score on the BUY
0.60/0.50/0.55 scenario, on which the scorer's inline variant agrees); the
inline variant deviates off the claimed rule only in its guard and its
in-spread/passive branch, refuted separately. -/
theorem c5_aggressiveness_spec :
    (∀ input : FeatureInput,
      (computeAggressiveness input).score = aggressivenessClaim input) ∧
    (computeAggressiveness inpCross).score = 1 ∧
    Scorer.extractFeatures inpCross FeatureName.aggressiveness = 1 := by
  refine ⟨?_, ?_, ?_⟩
  · intro input
    rcases input with ⟨t, m, c⟩
    rcases t with ⟨size, price, side, ts⟩
    rcases m with ⟨ed, bb, ba, bd, ad⟩
    simp only [computeAggressiveness, aggressivenessClaim]
    by_cases hg : ba - bb > 0 ∧ bb > 0 ∧ ba > 0
    · have hg' : ¬(ba - bb ≤ 0 ∨ bb ≤ 0 ∨ ba ≤ 0) := by
        push_neg
        exact ⟨hg.1, hg.2.1, hg.2.2⟩
      rw [if_pos hg, if_neg hg']
      cases side
      · -- BUY
        rw [if_pos rfl]
        dsimp only
        by_cases h1 : price ≥ ba
        · rw [if_pos h1, if_pos h1]
          exact aggressiveness_cross_cap _
        · rw [if_neg h1, if_neg h1]
          by_cases h2 : price > bb
          · rw [if_pos h2,
              if_pos (show bb < price ∧ price < ba from ⟨h2, lt_of_not_ge h1⟩)]
            have hsp : (price - bb) / (ba - bb) < 1 := by
              rw [div_lt_one (show (0 : ℚ) < ba - bb from hg.1)]
              have := lt_of_not_ge h1
              linarith
            exact aggressiveness_spread_cap _ hsp
          · rw [if_neg h2,
              if_neg (show ¬(bb < price ∧ price < ba) from fun hc => h2 hc.1)]
            dsimp only
            norm_num
      · -- SELL
        rw [if_neg (fun h => nomatch h)]
        dsimp only
        by_cases h1 : price ≤ bb
        · rw [if_pos h1, if_pos h1]
          exact aggressiveness_cross_cap _
        · rw [if_neg h1, if_neg h1]
          by_cases h2 : price < ba
          · have hb : bb < price := lt_of_not_ge fun hc => h1 hc
            rw [if_pos h2, if_pos (show bb < price ∧ price < ba from ⟨hb, h2⟩)]
            have hsp : (ba - price) / (ba - bb) < 1 := by
              rw [div_lt_one (show (0 : ℚ) < ba - bb from hg.1)]
              linarith
            exact aggressiveness_spread_cap _ hsp
          · rw [if_neg h2,
              if_neg (show ¬(bb < price ∧ price < ba) from fun hc => h2 hc.2)]
            dsimp only
            norm_num
    · have hg' : ba - bb ≤ 0 ∨ bb ≤ 0 ∨ ba ≤ 0 := by
        by_contra hno
        push_neg at hno
        exact hg ⟨hno.1, hno.2.1, hno.2.2⟩
      rw [if_neg hg, if_pos hg']
      dsimp only
      norm_num
  · norm_num [computeAggressiveness, inpCross, baseInput]
  · norm_num [Scorer.extractFeatures, inpCross, baseInput]

/-- The must-flag liquidity rule: the code's guarded percentage test equals
the claim's amended condition `totalLiquidity > 0 ∧ position > 5% of it`. -/
theorem liquidity_branch (wp tl : ℚ) (s : String) :
    (if 0 < tl then
      (if wp / tl * 100 > 5 then
        ({ mustFlag := true, condition := some s } : Scorer.MustFlagResult)
      else { mustFlag := false, condition := none })
    else { mustFlag := false, condition := none }) =
    (if 0 < tl ∧ wp > tl * (5 / 100) then
      ({ mustFlag := true, condition := some s } : Scorer.MustFlagResult)
    else { mustFlag := false, condition := none }) := by
  by_cases h : 0 < tl
  · rw [if_pos h]
    by_cases h2 : wp / tl * 100 > 5
    · have hgt : wp > tl * (5 / 100) := by
        rw [gt_iff_lt, show wp / tl * 100 = wp * 100 / tl from by ring,
          lt_div_iff₀ h] at h2
        linarith
      rw [if_pos h2, if_pos ⟨h, hgt⟩]
    · have hno : ¬(0 < tl ∧ wp > tl * (5 / 100)) := by
        rintro ⟨-, hgt⟩
        apply h2
        rw [gt_iff_lt, show wp / tl * 100 = wp * 100 / tl from by ring,
          lt_div_iff₀ h]
        linarith
      rw [if_neg h2, if_neg hno]
  · rw [if_neg h, if_neg (fun hc => h hc.1)]

/-- C2 counterexample: with wallet position 1 on a market reporting total
liquidity 0 (and every other condition below threshold), the claim's
condition (d) holds — 1 exceeds 5% of 0 — yet `checkMustFlag` does not
flag, because the code skips the liquidity rule when liquidity ≤ 0. -/
theorem c2_liquidity_zero_counterexample :
    (Scorer.checkMustFlag inpLiq0).mustFlag = false ∧
    inpLiq0.context.walletPosition > inpLiq0.context.totalLiquidity * (5 / 100) ∧
    ¬(inpLiq0.context.tradeUsdValue > 25000) ∧
    ¬(|inpLiq0.context.walletPosition - inpLiq0.context.walletPositionHourAgo| *
        inpLiq0.trade.price > 50000) ∧
    inpLiq0.context.walletAgeDays = none := by
  refine ⟨?_, by norm_num [inpLiq0, baseInput], by norm_num [inpLiq0, baseInput],
    by norm_num [inpLiq0, baseInput], rfl⟩
  norm_num [Scorer.checkMustFlag, inpLiq0, baseInput, MUST_FLAG_THRESHOLDS]

/-- C2 (amended): `checkMustFlag` agrees everywhere with the claim's
priority-ordered rule set, with condition (d) amended to also require
`totalLiquidity > 0`; on the claimed scenario (wallet age 3 days, trade
$12,000, everything else below threshold) condition (c) fires and the
reported description contains "3d" and "$10,000". -/
theorem c2_checkMustFlag_spec :
    (∀ input : FeatureInput, Scorer.checkMustFlag input = mustFlagClaim input) ∧
    Scorer.checkMustFlag inpAge3 =
      { mustFlag := true, condition := some ("New wallet (3d old) traded > $10,000") } ∧
    List.IsInfix ("3d".toList) ("New wallet (3d old) traded > $10,000".toList) ∧
    List.IsInfix ("$10,000".toList) ("New wallet (3d old) traded > $10,000".toList) := by
  refine ⟨?_, ?_, by decide, by decide⟩
  · intro input
    rcases input with ⟨t, m, c⟩
    rcases c with ⟨med, wp, wph, wt, tl, age, usd⟩
    simp only [Scorer.checkMustFlag, mustFlagClaim, MUST_FLAG_THRESHOLDS]
    by_cases hA : usd > 25000
    · rw [if_pos hA, if_pos hA]
    · rw [if_neg hA, if_neg hA]
      by_cases hB : |wp - wph| * t.price > 50000
      · rw [if_pos hB, if_pos hB]
      · rw [if_neg hB, if_neg hB]
        cases age with
        | none =>
          dsimp only [Option.getD_none, Option.isSome_none]
          rw [if_neg (show ¬(false = true ∧ (0 : ℚ) < 7 ∧ usd > 10000) from
            fun hc => nomatch hc.1)]
          exact liquidity_branch wp tl _
        | some a =>
          dsimp only [Option.getD_some, Option.isSome_some]
          by_cases hC : a < 7 ∧ usd > 10000
          · rw [if_pos hC,
              if_pos (show true = true ∧ a < 7 ∧ usd > 10000 from ⟨rfl, hC⟩)]
          · rw [if_neg hC,
              if_neg (show ¬(true = true ∧ a < 7 ∧ usd > 10000) from
                fun hc => hC hc.2)]
            exact liquidity_branch wp tl _
  · norm_num [Scorer.checkMustFlag, inpAge3, baseInput, MUST_FLAG_THRESHOLDS,
      jsNumToString]
    rfl

/-- C1 counterexample: the claim's example input — `tradeUsdValue = 26000`
with every other raw input degenerate — cannot have "all feature scores 0
[and] weighted score 0": the scorer derives dollarValue = 26/31 from the
USD value itself, giving weighted score 13/310 ≠ 0 (the alert still fires,
via must-flag). -/
theorem c1_usd26000_counterexample :
    inp26.context.tradeUsdValue = 26000 ∧
    Scorer.extractFeatures inp26 FeatureName.dollarValue = 26 / 31 ∧
    ((26 / 31 : ℚ) ≠ 0) ∧
    (Scorer.scoreTrade inp26 0.3).score = 13 / 310 ∧
    ((13 / 310 : ℚ) ≠ 0) := by
  refine ⟨rfl, ?_, by norm_num, ?_, by norm_num⟩
  · norm_num [Scorer.extractFeatures, Scorer.normalize, inp26, baseInput]
  · norm_num [Scorer.scoreTrade, Scorer.extractFeatures, Scorer.normalize,
      weightEntries, inp26, baseInput, List.foldl_cons, List.foldl_nil]

/-- C1 (amended): `scoreTrade` alerts exactly when a must-flag condition
holds or the weighted score reaches `0.25 + sensitivity * 0.5`; the
threshold is 0.25 at s=0, 0.40 at s=0.3 (the default), 0.75 at s=1.0; and
a must-flag forces the alert regardless of the weighted score — at
`tradeUsdValue = 26000` with all other raw inputs degenerate the weighted
score is 13/310 ≈ 0.042 (all features 0 except dollarValue = 26/31), far
below the default threshold 0.40, yet `shouldAlert` is true. -/
theorem c1_scoreTrade_alert_rule :
    (∀ (input : FeatureInput) (s : ℚ),
      (Scorer.scoreTrade input s).shouldAlert = true ↔
        ((Scorer.checkMustFlag input).mustFlag = true ∨
          (Scorer.scoreTrade input s).score ≥ 0.25 + s * 0.5)) ∧
    getAlertThreshold 0 = 0.25 ∧
    getAlertThreshold 0.3 = 0.4 ∧
    getAlertThreshold 1 = 0.75 ∧
    (Scorer.checkMustFlag inp26).mustFlag = true ∧
    (Scorer.scoreTrade inp26 0.3).shouldAlert = true ∧
    ((13 / 310 : ℚ) < getAlertThreshold 0.3) := by
  have hmf : (Scorer.checkMustFlag inp26).mustFlag = true := by
    norm_num [Scorer.checkMustFlag, inp26, baseInput, MUST_FLAG_THRESHOLDS]
  refine ⟨?_, by norm_num [getAlertThreshold], by norm_num [getAlertThreshold],
    by norm_num [getAlertThreshold], hmf, ?_, by norm_num [getAlertThreshold]⟩
  · intro input s
    simp [Scorer.scoreTrade, getAlertThreshold, Bool.or_eq_true, decide_eq_true_eq]
  · simp [Scorer.scoreTrade, hmf]

/-- C3: `computePositionConcentration` (and the scorer's inline copy) breaks
its own documented 0–1 score contract on a negative wallet position: at
position -50 with total liquidity 100 both return -1/2 < 0. -/
theorem c3_positionConcentration_negative :
    (computePositionConcentration inpNegPos).score = -(1 / 2) ∧
    ((-(1 / 2) : ℚ) < 0) ∧
    Scorer.extractFeatures inpNegPos FeatureName.positionConcentration = -(1 / 2) := by
  refine ⟨?_, by norm_num, ?_⟩
  · norm_num [computePositionConcentration, inpNegPos, baseInput, min_def]
  · norm_num [Scorer.extractFeatures, Scorer.normalize, inpNegPos, baseInput, min_def]

/-- C7 counterexample: a trade whose taker is the zero address does not
update (or even create) the taker's entry — `updatePosition` skips empty
and zero-address wallets — while the maker's entry is created as usual. -/
theorem c7_zero_address_counterexample :
    PosAgg.computePositionsFromTrades [tZero] PosAgg.zeroAddress ("tok") = none ∧
    PosAgg.computePositionsFromTrades [tZero] "W2" "tok" ≠ none := by
  constructor <;>
    simp [PosAgg.computePositionsFromTrades, PosAgg.processTrade, PosAgg.updatePosition,
      PosAgg.noPositions, PosAgg.zeroAddress, tZero]

/-- C7 (amended): for every trade leg on a non-empty, non-zero-address
wallet, the `(wallet, token)` entry is updated exactly as claimed (position
± size on effective buy/sell, volume bucket and trade count updated); both
legs of a trade are applied from the same record, taker first; and on the
claimed scenario (W1 takes a BUY of 5, then is maker on a SELL of 3 in the
same token) W1 ends at position +8 with trade count 2. -/
theorem updatePosition_self (ps : PosAgg.Positions) (wallet tokenId : String)
    (side : Side) (size price : ℚ) (isTaker : Bool)
    (h1 : wallet ≠ "") (h2 : wallet ≠ PosAgg.zeroAddress) :
    PosAgg.updatePosition ps wallet tokenId side size price isTaker wallet tokenId =
      some (legUpdateClaim ((ps wallet tokenId).getD PosAgg.emptyPosition)
        side size price isTaker) := by
  simp only [PosAgg.updatePosition, legUpdateClaim]
  rw [if_neg (by
    rintro (h | h)
    exacts [h1 h, h2 h])]
  rw [if_pos (show wallet = wallet ∧ tokenId = tokenId from ⟨rfl, rfl⟩)]
  by_cases hs : size > 0 <;> simp [hs] <;>
    by_cases hbb : isTaker = true ∧ side = Side.BUY ∨ isTaker = false ∧ side = Side.SELL <;>
    simp [hbb]

theorem updatePosition_other (ps : PosAgg.Positions) (wallet tokenId : String)
    (side : Side) (size price : ℚ) (isTaker : Bool) (w t : String)
    (h : ¬(w = wallet ∧ t = tokenId)) :
    PosAgg.updatePosition ps wallet tokenId side size price isTaker w t = ps w t := by
  simp only [PosAgg.updatePosition]
  by_cases hw : wallet = "" ∨ wallet = PosAgg.zeroAddress
  · rw [if_pos hw]
  · rw [if_neg hw]
    exact if_neg h

theorem c7_position_update :
    (∀ (ps : PosAgg.Positions) (wallet tokenId : String) (side : Side)
        (size price : ℚ) (isTaker : Bool),
      wallet ≠ "" → wallet ≠ PosAgg.zeroAddress →
      PosAgg.updatePosition ps wallet tokenId side size price isTaker wallet tokenId =
        some (legUpdateClaim ((ps wallet tokenId).getD PosAgg.emptyPosition)
          side size price isTaker)) ∧
    (∀ (ps : PosAgg.Positions) (t : PosAgg.LedgerTrade),
      PosAgg.processTrade ps t =
        PosAgg.updatePosition
          (PosAgg.updatePosition ps t.taker t.tokenId t.side t.size t.price true)
          t.maker t.tokenId t.side t.size t.price false) ∧
    (∃ p, PosAgg.computePositionsFromTrades [tA, tB] "W1" "tok" = some p ∧
      p.position = 8 ∧ p.tradeCount = 2 ∧ p.buyVolume = 8 ∧ p.sellVolume = 0) := by
  refine ⟨fun ps wallet tokenId side size price isTaker h1 h2 =>
    updatePosition_self ps wallet tokenId side size price isTaker h1 h2,
    fun ps t => rfl, ?_⟩
  have e1 : PosAgg.processTrade PosAgg.noPositions tA ("W1") "tok" =
      some ⟨5, 5, 0, 1, some 0.5⟩ := by
    show PosAgg.updatePosition
      (PosAgg.updatePosition PosAgg.noPositions ("W1") "tok" Side.BUY 5 0.5 true)
      "W3" "tok" Side.BUY 5 0.5 false ("W1") "tok" = _
    rw [updatePosition_other _ _ _ _ _ _ _ _ _ (by simp),
      updatePosition_self _ _ _ _ _ _ _ (by decide) (by decide)]
    simp [legUpdateClaim, PosAgg.noPositions, PosAgg.emptyPosition]
  have e2 : PosAgg.computePositionsFromTrades [tA, tB] "W1" "tok" =
      some ⟨8, 8, 0, 2, some 0.6⟩ := by
    show PosAgg.updatePosition
      (PosAgg.updatePosition (PosAgg.processTrade PosAgg.noPositions tA)
        "W4" "tok" Side.SELL 3 0.6 true)
      ("W1") "tok" Side.SELL 3 0.6 false ("W1") "tok" = _
    rw [updatePosition_self _ _ _ _ _ _ _ (by decide) (by decide),
      updatePosition_other _ _ _ _ _ _ _ _ _ (by simp), e1]
    simp [legUpdateClaim]
    norm_num
  exact ⟨_, e2, rfl, rfl, rfl, rfl⟩

/-- Witness for C7's per-leg update rule at a concrete leg: wallet W1 takes
a BUY of size 5 at price 1 starting from the empty map. -/
theorem c7_position_update_witness :
    PosAgg.updatePosition PosAgg.noPositions ("W1") "tok" Side.BUY 5 1 true ("W1") "tok" =
      some (legUpdateClaim ((PosAgg.noPositions ("W1") "tok").getD PosAgg.emptyPosition)
        Side.BUY 5 1 true) :=
  c7_position_update.1 PosAgg.noPositions ("W1") "tok" Side.BUY 5 1 true
    (by decide) (by decide)

end Polydiction
